import Mathlib

/-!
Shallow embedding of the SwapTool workforce-management application
(approval workflow for leave requests and shift-swap requests).

Conventions of the embedding:
- the database is passed explicitly (lists of records, a key/value list
  for the settings table);
- calendar dates and timestamps are natural numbers; the source compares
  ISO date strings, whose lexicographic order is isomorphic to this;
- a fallible operation returns `Except WorkflowError result`; the source
  signals each failure by setting a page-level error message and
  returning before the insert, and each `WorkflowError` constructor is
  named after one of those exit paths (or after the error kind the
  specification gives that path);
- identifiers (user ids, shift ids) are strings; the empty string stands
  for an unselected form field, as in the source pages.
-/

namespace SwapTool

/-- User roles, from the role enumeration used across the pages
(`agent`, `tl`, `wfm`). -/
inductive Role where
  | agent
  | tl
  | wfm
deriving DecidableEq, Repr

/-- Leave categories, from `LEAVE_TYPES` in the leave pages. -/
inductive LeaveType where
  | sick
  | annual
  | casual
  | public_holiday
  | bereavement
deriving DecidableEq, Repr

/-- Shift types, from `SHIFT_TYPE_LABELS` in CreateSwapRequest.tsx. -/
inductive ShiftType where
  | AM
  | PM
  | BET
  | OFF
deriving DecidableEq, Repr

/-- Leave-request statuses, from `LeaveRequestStatus` as used in
LeaveRequests.tsx (`pending_tl`, `pending_wfm`, `approved`, `rejected`). -/
inductive LeaveRequestStatus where
  | pending_tl
  | pending_wfm
  | approved
  | rejected
deriving DecidableEq, Repr

/-- Swap-request statuses, from the swap pages and the spec
(`pending_acceptance`, `pending_approval`, `approved`, `rejected`,
`declined`). -/
inductive SwapRequestStatus where
  | pending_acceptance
  | pending_approval
  | approved
  | rejected
  | declined
deriving DecidableEq, Repr

/-- A decision passed to a decide operation. -/
inductive Decision where
  | approve
  | reject
deriving DecidableEq, Repr

/-- Typed failure outcomes.  The first three name the early-return error
messages of the source pages; the rest are the error kinds of the
specification for those same exit paths. -/
inductive WorkflowError where
  | MissingField
  | InvalidRange
  | InvalidTarget
  | InvalidShift
  | Unauthorized
  | NotFound
  | TerminalState
  | InvalidState
deriving DecidableEq, Repr

/-- A row of the `users` table (the fields the embedded pages read). -/
structure User where
  id : String
  name : String
  role : Role
deriving DecidableEq, Repr

/-- A row of the `shifts` table (the fields the embedded pages read). -/
structure Shift where
  id : String
  user_id : String
  date : Nat
  shift_type : ShiftType
deriving DecidableEq, Repr

/-- A row of the `leave_requests` table, with the columns written by
`CreateLeaveRequest.handleSubmit` plus the creation timestamp. -/
structure LeaveRequest where
  user_id : String
  leave_type : LeaveType
  start_date : Nat
  end_date : Nat
  notes : String
  status : LeaveRequestStatus
  tl_approved_at : Option Nat
  wfm_approved_at : Option Nat
  created_at : Nat
deriving DecidableEq, Repr

/-- A row of the `swap_requests` table: the five columns written by
`CreateSwapRequest.handleSubmit`, plus the four nullable snapshot
columns added by migration 006 (`requester_original_date`,
`requester_original_shift_type`, `target_original_date`,
`target_original_shift_type`). -/
structure SwapRequest where
  requester_id : String
  target_user_id : String
  requester_shift_id : String
  target_shift_id : String
  status : SwapRequestStatus
  requester_original_date : Option Nat
  requester_original_shift_type : Option ShiftType
  target_original_date : Option Nat
  target_original_shift_type : Option ShiftType
deriving DecidableEq, Repr

/-- The `settings` table: key/value pairs of strings
(migration 003 declares `key TEXT UNIQUE`, `value TEXT`). -/
abbrev Settings := List (String × String)

/-- `select value from settings where key = k` (single row by the unique
key). -/
def getSetting (settings : Settings) (k : String) : Option String :=
  (settings.find? (fun kv => kv.1 == k)).map (fun kv => kv.2)

/-- Embeds `fetchSettings` of Settings.tsx: a missing row is tolerated
(`PGRST116`) and the toggle state is `data?.value === 'true'`. -/
def fetchSettingsAutoApprove (settings : Settings) : Bool :=
  getSetting settings "wfm_auto_approve" == some "true"

/-- Embeds `CreateLeaveRequest.handleSubmit`: require both dates, require
`endDate >= startDate` (source: `new Date(endDate) < new Date(startDate)`
is an error), read the `wfm_auto_approve` setting
(`settings?.value === 'true'`), and build the inserted row: status
`approved` with both decision timestamps stamped when auto-approve is on,
else `pending_tl` with both timestamps null. -/
def createLeaveRequest (userId : String) (leaveType : LeaveType)
    (startDate endDate : Option Nat) (notes : String)
    (settings : Settings) (now : Nat) :
    Except WorkflowError LeaveRequest :=
  match startDate, endDate with
  | some s, some e =>
    if e < s then
      Except.error WorkflowError.InvalidRange
    else
      let isAutoApprove := getSetting settings "wfm_auto_approve" == some "true"
      Except.ok
        { user_id := userId
          leave_type := leaveType
          start_date := s
          end_date := e
          notes := notes
          status := if isAutoApprove then LeaveRequestStatus.approved
                    else LeaveRequestStatus.pending_tl
          wfm_approved_at := if isAutoApprove then some now else none
          tl_approved_at := if isAutoApprove then some now else none
          created_at := now }
  | _, _ => Except.error WorkflowError.MissingField

/-- The database effect of the leave-request form submission: on success
the built row is inserted, on failure the table is untouched and the
error is surfaced. -/
def submitLeaveRequest (db : List LeaveRequest) (userId : String)
    (leaveType : LeaveType) (startDate endDate : Option Nat)
    (notes : String) (settings : Settings) (now : Nat) :
    List LeaveRequest × Option WorkflowError :=
  match createLeaveRequest userId leaveType startDate endDate notes settings now with
  | Except.ok r => (db ++ [r], none)
  | Except.error e => (db, some e)

/-- The optional filters of the LeaveRequests page (start date, end date,
leave type); an unset filter is `none`, as an empty form field is in the
source. -/
structure LeaveFilters where
  startDate : Option Nat
  endDate : Option Nat
  leaveTypeFilter : Option LeaveType
deriving DecidableEq, Repr

/-- Embeds `isManager` of LeaveRequests.tsx:
`user?.role === 'tl' || user?.role === 'wfm'`. -/
def isManager (u : User) : Bool :=
  u.role == Role.tl || u.role == Role.wfm

/-- Embeds the query built by `fetchRequests` of LeaveRequests.tsx
(the filter-building portion; ordering by creation time and the
page-window selection that follow it only rearrange and truncate the
result and are not modelled): start from `leave_requests`; if the user
is not a manager add `eq(user_id, user.id)`; then the optional
`gte(start_date, startDate)`, `lte(end_date, endDate)` and
`eq(leave_type, leaveTypeFilter)` filters. -/
def fetchRequests (db : List LeaveRequest) (u : User) (f : LeaveFilters) :
    List LeaveRequest :=
  let q := if isManager u then db else db.filter (fun r => r.user_id == u.id)
  let q := match f.startDate with
    | some d => q.filter (fun r => d ≤ r.start_date)
    | none => q
  let q := match f.endDate with
    | some d => q.filter (fun r => r.end_date ≤ d)
    | none => q
  match f.leaveTypeFilter with
  | some t => q.filter (fun r => r.leave_type == t)
  | none => q

/-- The non-ownership filters of `fetchRequests` on their own, used to
state what the query returns once the conditional ownership restriction
is accounted for. -/
def applyLeaveFilters (db : List LeaveRequest) (f : LeaveFilters) :
    List LeaveRequest :=
  let q := match f.startDate with
    | some d => db.filter (fun r => d ≤ r.start_date)
    | none => db
  let q := match f.endDate with
    | some d => q.filter (fun r => r.end_date ≤ d)
    | none => q
  match f.leaveTypeFilter with
  | some t => q.filter (fun r => r.leave_type == t)
  | none => q

/-- Embeds `fetchAgents` of CreateSwapRequest.tsx: the selectable
colleagues are the users with `role = 'agent'` whose id differs from the
current user (`neq('id', user.id)`); the name ordering is not modelled. -/
def fetchAgents (users : List User) (current : User) : List User :=
  users.filter (fun u => u.role == Role.agent && u.id != current.id)

/-- Embeds `fetchMyShifts` of CreateSwapRequest.tsx: the current user's
shifts with `date >= today`, i.e. `eq(user_id, user.id)` and
`gte(date, today)`. -/
def fetchMyShifts (shifts : List Shift) (current : User) (today : Nat) :
    List Shift :=
  shifts.filter (fun s => s.user_id == current.id && today ≤ s.date)

/-- Embeds `fetchTargetShifts` of CreateSwapRequest.tsx: the target
user's shifts with `date >= today`. -/
def fetchTargetShifts (shifts : List Shift) (targetUserId : String)
    (today : Nat) : List Shift :=
  shifts.filter (fun s => s.user_id == targetUserId && today ≤ s.date)

/-- Embeds `handleSubmit` of CreateSwapRequest.tsx: reject an unselected
target, own shift or target shift (the three early-return error
messages), then insert a row with `requester_id`, `target_user_id`,
`requester_shift_id`, `target_shift_id` and `status: 'pending_acceptance'`.
No other column appears in the insert, so the four migration-006
snapshot columns of the new row are null. -/
def handleSubmitSwap (current : User)
    (targetUserId myShiftId targetShiftId : String) :
    Except WorkflowError SwapRequest :=
  if targetUserId == "" then
    Except.error WorkflowError.MissingField
  else if myShiftId == "" then
    Except.error WorkflowError.MissingField
  else if targetShiftId == "" then
    Except.error WorkflowError.MissingField
  else
    Except.ok
      { requester_id := current.id
        target_user_id := targetUserId
        requester_shift_id := myShiftId
        target_shift_id := targetShiftId
        status := SwapRequestStatus.pending_acceptance
        requester_original_date := none
        requester_original_shift_type := none
        target_original_date := none
        target_original_shift_type := none }

/-- The database effect of the swap-request form submission: on success
the built row is inserted, on failure the table is untouched. -/
def submitSwapRequest (db : List SwapRequest) (current : User)
    (targetUserId myShiftId targetShiftId : String) :
    List SwapRequest × Option WorkflowError :=
  match handleSubmitSwap current targetUserId myShiftId targetShiftId with
  | Except.ok r => (db ++ [r], none)
  | Except.error e => (db, some e)

/-- Modelled from the spec: the decide operation on a leave request lives
in `src/pages/LeaveRequestDetail.tsx`, which the repository's migration
handoff document lists but which is not under src/; this follows the
state table of spec section 4 for `decideLeaveRequest(request, actorRole,
decision)`.  From `pending_team_lead` (source status name `pending_tl`):
approve requires role `team_lead` or `workforce_manager` and moves to
`pending_workforce_manager` stamping the TL-decision timestamp, reject
moves to `rejected` stamping the TL-decision timestamp.  From
`pending_workforce_manager` (`pending_wfm`): approve requires
`workforce_manager` and moves to `approved` stamping the WFM-decision
timestamp, reject moves to `rejected` stamping the WFM-decision
timestamp.  From `approved` or `rejected` every decision fails with
`TerminalState`; a role failing its per-transition requirement fails with
`Unauthorized`. -/
def decideLeaveRequest (r : LeaveRequest) (actorRole : Role)
    (d : Decision) (now : Nat) : Except WorkflowError LeaveRequest :=
  match r.status, d with
  | LeaveRequestStatus.pending_tl, Decision.approve =>
    if actorRole = Role.tl ∨ actorRole = Role.wfm then
      Except.ok { r with status := LeaveRequestStatus.pending_wfm
                         tl_approved_at := some now }
    else
      Except.error WorkflowError.Unauthorized
  | LeaveRequestStatus.pending_tl, Decision.reject =>
    Except.ok { r with status := LeaveRequestStatus.rejected
                       tl_approved_at := some now }
  | LeaveRequestStatus.pending_wfm, Decision.approve =>
    if actorRole = Role.wfm then
      Except.ok { r with status := LeaveRequestStatus.approved
                         wfm_approved_at := some now }
    else
      Except.error WorkflowError.Unauthorized
  | LeaveRequestStatus.pending_wfm, Decision.reject =>
    Except.ok { r with status := LeaveRequestStatus.rejected
                       wfm_approved_at := some now }
  | LeaveRequestStatus.approved, _ =>
    Except.error WorkflowError.TerminalState
  | LeaveRequestStatus.rejected, _ =>
    Except.error WorkflowError.TerminalState

/-- Modelled from the spec: the side effect a swap decision reports
together with the new request state (spec sections 4 and 6 require the
transition and the side-effect computation to be returned as one unit). -/
inductive SwapSideEffect where
  | noEffect
  | exchangeShifts (requesterShiftId targetShiftId : String)
deriving DecidableEq, Repr

/-- Modelled from the spec: the manager decision on a swap request lives
in `src/pages/SwapRequestDetail.tsx`, which the repository's migration
handoff document lists but which is not under src/; this follows spec
section 4 for `decideSwapRequest(request, actorRole, decision)`.  Valid
only from `pending_approval` with role `team_lead` or
`workforce_manager`; approve moves to `approved` and reports the
one-time shift-ownership exchange as the side effect, reject moves to
`rejected`; from the terminal statuses `approved`, `rejected` and
`declined` every decision fails with `TerminalState`.  The spec leaves
the `pending_acceptance` case unspecified beyond being invalid; it is
mapped to `InvalidState`. -/
def decideSwapRequest (r : SwapRequest) (actorRole : Role) (d : Decision) :
    Except WorkflowError (SwapRequest × SwapSideEffect) :=
  match r.status with
  | SwapRequestStatus.pending_approval =>
    if actorRole = Role.tl ∨ actorRole = Role.wfm then
      match d with
      | Decision.approve =>
        Except.ok ({ r with status := SwapRequestStatus.approved },
          SwapSideEffect.exchangeShifts r.requester_shift_id r.target_shift_id)
      | Decision.reject =>
        Except.ok ({ r with status := SwapRequestStatus.rejected },
          SwapSideEffect.noEffect)
    else
      Except.error WorkflowError.Unauthorized
  | SwapRequestStatus.approved => Except.error WorkflowError.TerminalState
  | SwapRequestStatus.rejected => Except.error WorkflowError.TerminalState
  | SwapRequestStatus.declined => Except.error WorkflowError.TerminalState
  | SwapRequestStatus.pending_acceptance =>
    Except.error WorkflowError.InvalidState

/-- Modelled from the spec: executing the shift-ownership exchange on the
`shifts` table — the two referenced shift records swap their
`user_id` columns; every other row is untouched.  When either id does
not resolve the table is left unchanged (the spec guarantees both were
validated at creation). -/
def swapShiftOwners (shifts : List Shift) (idA idB : String) :
    List Shift :=
  match shifts.find? (fun s => s.id == idA),
        shifts.find? (fun s => s.id == idB) with
  | some a, some b =>
    shifts.map (fun s =>
      if s.id == idA then { s with user_id := b.user_id }
      else if s.id == idB then { s with user_id := a.user_id }
      else s)
  | _, _ => shifts

/-- Modelled from the spec: the persistence collaborator applying a
reported side effect to the `shifts` table. -/
def applySideEffect (shifts : List Shift) : SwapSideEffect → List Shift
  | SwapSideEffect.noEffect => shifts
  | SwapSideEffect.exchangeShifts a b => swapShiftOwners shifts a b

/-- Modelled from the spec: a swap decision committed atomically with its
side effect — the new request state together with the updated `shifts`
table, or the engine's failure with the table untouched. -/
def decideSwapAndApply (shifts : List Shift) (r : SwapRequest)
    (actorRole : Role) (d : Decision) :
    Except WorkflowError (SwapRequest × List Shift) :=
  match decideSwapRequest r actorRole d with
  | Except.ok (r2, eff) => Except.ok (r2, applySideEffect shifts eff)
  | Except.error e => Except.error e

/-! Helper lemmas shared by the claim theorems. -/

/-- Building the inserted leave-request row when the auto-approve read is
true. -/
lemma createLeaveRequest_flag_true (userId : String) (leaveType : LeaveType)
    (s e : Nat) (notes : String) (settings : Settings) (now : Nat)
    (hrange : s ≤ e)
    (hflag : (getSetting settings "wfm_auto_approve" == some "true") = true) :
    createLeaveRequest userId leaveType (some s) (some e) notes settings now =
      Except.ok
        { user_id := userId, leave_type := leaveType, start_date := s,
          end_date := e, notes := notes,
          status := LeaveRequestStatus.approved,
          tl_approved_at := some now, wfm_approved_at := some now,
          created_at := now } := by
  have hnot : ¬ e < s := Nat.not_lt.mpr hrange
  simp [createLeaveRequest, hnot, hflag]

/-- Building the inserted leave-request row when the auto-approve read is
false. -/
lemma createLeaveRequest_flag_false (userId : String) (leaveType : LeaveType)
    (s e : Nat) (notes : String) (settings : Settings) (now : Nat)
    (hrange : s ≤ e)
    (hflag : (getSetting settings "wfm_auto_approve" == some "true") = false) :
    createLeaveRequest userId leaveType (some s) (some e) notes settings now =
      Except.ok
        { user_id := userId, leave_type := leaveType, start_date := s,
          end_date := e, notes := notes,
          status := LeaveRequestStatus.pending_tl,
          tl_approved_at := none, wfm_approved_at := none,
          created_at := now } := by
  have hnot : ¬ e < s := Nat.not_lt.mpr hrange
  simp [createLeaveRequest, hnot, hflag]

/-- A row surviving the optional date and leave-type filters was in the
input list. -/
lemma mem_of_mem_applyLeaveFilters (db : List LeaveRequest)
    (f : LeaveFilters) (r : LeaveRequest)
    (h : r ∈ applyLeaveFilters db f) : r ∈ db := by
  rcases f with ⟨sd, ed, tf⟩
  unfold applyLeaveFilters at h
  cases sd <;> cases ed <;> cases tf <;> simp_all [List.mem_filter]

/-! Concrete fixtures used by witness theorems. -/

def userA1 : User := { id := "a1", name := "Alice", role := Role.agent }

def userA2 : User := { id := "a2", name := "Bob", role := Role.agent }

def userTL : User := { id := "t1", name := "Tess", role := Role.tl }

def reqA1 : LeaveRequest :=
  { user_id := "a1", leave_type := LeaveType.annual, start_date := 3,
    end_date := 5, notes := "", status := LeaveRequestStatus.pending_tl,
    tl_approved_at := none, wfm_approved_at := none, created_at := 1 }

def reqA2 : LeaveRequest :=
  { user_id := "a2", leave_type := LeaveType.sick, start_date := 4,
    end_date := 4, notes := "", status := LeaveRequestStatus.pending_tl,
    tl_approved_at := none, wfm_approved_at := none, created_at := 2 }

def dbLeave : List LeaveRequest := [reqA1, reqA2]

def noFilters : LeaveFilters :=
  { startDate := none, endDate := none, leaveTypeFilter := none }

/-! Claim theorems. -/

/-- Claim C3: for every call to createLeaveRequest with a valid date
range, when the auto-approve setting reads true at call time the created
request has status approved with both decision timestamps equal to the
creation timestamp, and when it reads false the created request has
status pending_tl with both decision timestamps null. -/
theorem createLeaveRequest_autoApprove (userId : String)
    (leaveType : LeaveType) (s e : Nat) (notes : String)
    (settings : Settings) (now : Nat) (hrange : s ≤ e) :
    (fetchSettingsAutoApprove settings = true →
      createLeaveRequest userId leaveType (some s) (some e) notes settings now =
        Except.ok
          { user_id := userId, leave_type := leaveType, start_date := s,
            end_date := e, notes := notes,
            status := LeaveRequestStatus.approved,
            tl_approved_at := some now, wfm_approved_at := some now,
            created_at := now }) ∧
    (fetchSettingsAutoApprove settings = false →
      createLeaveRequest userId leaveType (some s) (some e) notes settings now =
        Except.ok
          { user_id := userId, leave_type := leaveType, start_date := s,
            end_date := e, notes := notes,
            status := LeaveRequestStatus.pending_tl,
            tl_approved_at := none, wfm_approved_at := none,
            created_at := now }) := by
  constructor
  · intro hflag
    exact createLeaveRequest_flag_true userId leaveType s e notes settings
      now hrange hflag
  · intro hflag
    exact createLeaveRequest_flag_false userId leaveType s e notes settings
      now hrange hflag

/-- Witness for C3 at concrete inputs: the same submission with the flag
present as true, and with the settings table empty. -/
theorem createLeaveRequest_autoApprove_w :
    createLeaveRequest "a1" LeaveType.annual (some 3) (some 5) ""
        [("wfm_auto_approve", "true")] 7 =
      Except.ok
        { user_id := "a1", leave_type := LeaveType.annual, start_date := 3,
          end_date := 5, notes := "",
          status := LeaveRequestStatus.approved,
          tl_approved_at := some 7, wfm_approved_at := some 7,
          created_at := 7 } ∧
    createLeaveRequest "a1" LeaveType.annual (some 3) (some 5) "" [] 7 =
      Except.ok
        { user_id := "a1", leave_type := LeaveType.annual, start_date := 3,
          end_date := 5, notes := "",
          status := LeaveRequestStatus.pending_tl,
          tl_approved_at := none, wfm_approved_at := none,
          created_at := 7 } := by
  refine ⟨?_, ?_⟩
  · exact (createLeaveRequest_autoApprove "a1" LeaveType.annual 3 5 ""
      [("wfm_auto_approve", "true")] 7 (by decide)).1 (by decide)
  · exact (createLeaveRequest_autoApprove "a1" LeaveType.annual 3 5 ""
      [] 7 (by decide)).2 (by decide)

/-- Claim C4: for every call to createLeaveRequest where the end date
precedes the start date, the operation fails with InvalidRange and the
stored set of requests is unchanged. -/
theorem createLeaveRequest_invalidRange (userId : String)
    (leaveType : LeaveType) (s e : Nat) (notes : String)
    (settings : Settings) (now : Nat) (db : List LeaveRequest)
    (h : e < s) :
    createLeaveRequest userId leaveType (some s) (some e) notes settings now =
      Except.error WorkflowError.InvalidRange ∧
    submitLeaveRequest db userId leaveType (some s) (some e) notes
        settings now =
      (db, some WorkflowError.InvalidRange) := by
  have h1 : createLeaveRequest userId leaveType (some s) (some e) notes
      settings now = Except.error WorkflowError.InvalidRange := by
    simp [createLeaveRequest, h]
  exact ⟨h1, by simp [submitLeaveRequest, h1]⟩

/-- Witness for C4 at a concrete input: end date 3 before start date 5,
against a nonempty table. -/
theorem createLeaveRequest_invalidRange_w :
    createLeaveRequest "a1" LeaveType.annual (some 5) (some 3) "" [] 7 =
      Except.error WorkflowError.InvalidRange ∧
    submitLeaveRequest dbLeave "a1" LeaveType.annual (some 5) (some 3) ""
        [] 7 =
      (dbLeave, some WorkflowError.InvalidRange) :=
  createLeaveRequest_invalidRange "a1" LeaveType.annual 5 3 "" [] 7
    dbLeave (by decide)

/-- Claim C9: when the auto-approve setting is absent from the settings
store, reading it yields false — the settings page computes the toggle as
off, and a leave request created at that moment gets status pending_tl
with both decision timestamps null. -/
theorem autoApprove_absent_default (userId : String)
    (leaveType : LeaveType) (s e : Nat) (notes : String)
    (settings : Settings) (now : Nat)
    (habsent : getSetting settings "wfm_auto_approve" = none)
    (hrange : s ≤ e) :
    fetchSettingsAutoApprove settings = false ∧
    createLeaveRequest userId leaveType (some s) (some e) notes settings now =
      Except.ok
        { user_id := userId, leave_type := leaveType, start_date := s,
          end_date := e, notes := notes,
          status := LeaveRequestStatus.pending_tl,
          tl_approved_at := none, wfm_approved_at := none,
          created_at := now } := by
  have hflag : (getSetting settings "wfm_auto_approve" == some "true") = false := by
    rw [habsent]
    rfl
  exact ⟨by simpa [fetchSettingsAutoApprove] using hflag,
    createLeaveRequest_flag_false userId leaveType s e notes settings now
      hrange hflag⟩

/-- Witness for C9 at a concrete input: an empty settings table, and one
holding only an unrelated key. -/
theorem autoApprove_absent_default_w :
    fetchSettingsAutoApprove [("theme", "dark")] = false ∧
    createLeaveRequest "a1" LeaveType.casual (some 2) (some 2) ""
        [("theme", "dark")] 9 =
      Except.ok
        { user_id := "a1", leave_type := LeaveType.casual, start_date := 2,
          end_date := 2, notes := "",
          status := LeaveRequestStatus.pending_tl,
          tl_approved_at := none, wfm_approved_at := none,
          created_at := 9 } :=
  autoApprove_absent_default "a1" LeaveType.casual 2 2 ""
    [("theme", "dark")] 9 (by decide) (by decide)

/-- Claim C10: in the leave-request listing, an authenticated user with
role agent gets the query restricted to rows whose user_id equals their
own id (so the result holds only their own requests), while a user with
role tl or wfm gets no ownership restriction: the result is the whole
table passed through the optional date and leave-type filters only. -/
theorem fetchRequests_ownership (db : List LeaveRequest) (u : User)
    (f : LeaveFilters) :
    (u.role = Role.agent →
      fetchRequests db u f =
        applyLeaveFilters (db.filter (fun r => r.user_id == u.id)) f ∧
      ∀ r ∈ fetchRequests db u f, r.user_id = u.id) ∧
    (u.role = Role.tl ∨ u.role = Role.wfm →
      fetchRequests db u f = applyLeaveFilters db f) := by
  constructor
  · intro hrole
    have hm : isManager u = false := by simp [isManager, hrole]
    have heq : fetchRequests db u f =
        applyLeaveFilters (db.filter (fun r => r.user_id == u.id)) f := by
      simp [fetchRequests, applyLeaveFilters, hm]
    refine ⟨heq, ?_⟩
    intro r hr
    rw [heq] at hr
    have hr2 : r ∈ db.filter (fun r => r.user_id == u.id) :=
      mem_of_mem_applyLeaveFilters _ _ _ hr
    have hpred := (List.mem_filter.mp hr2).2
    simpa using hpred
  · intro hrole
    have hm : isManager u = true := by
      rcases hrole with h | h <;> simp [isManager, h]
    simp [fetchRequests, applyLeaveFilters, hm]

/-- Witness for C10 at concrete inputs: a two-row table, queried without
filters by agent a1 and by a team lead. -/
theorem fetchRequests_ownership_w :
    fetchRequests dbLeave userA1 noFilters =
      applyLeaveFilters (dbLeave.filter (fun r => r.user_id == "a1"))
        noFilters ∧
    reqA1.user_id = "a1" ∧
    fetchRequests dbLeave userTL noFilters =
      applyLeaveFilters dbLeave noFilters := by
  have h1 := fetchRequests_ownership dbLeave userA1 noFilters
  have h2 := fetchRequests_ownership dbLeave userTL noFilters
  exact ⟨(h1.1 rfl).1, (h1.1 rfl).2 reqA1 (by decide), h2.2 (Or.inl rfl)⟩

/-- Claim C5, counterexample: handleSubmit with the target id equal to
the requester id does not fail with InvalidTarget — it succeeds and a
row with requester_id = target_user_id is inserted.  The requester-and-
target-differ constraint is not checked in handleSubmit. -/
theorem handleSubmitSwap_selfTarget_cex :
    handleSubmitSwap { id := "u1", name := "Alice", role := Role.agent }
        "u1" "s1" "s2" =
      Except.ok
        { requester_id := "u1", target_user_id := "u1",
          requester_shift_id := "s1", target_shift_id := "s2",
          status := SwapRequestStatus.pending_acceptance,
          requester_original_date := none,
          requester_original_shift_type := none,
          target_original_date := none,
          target_original_shift_type := none } ∧
    submitSwapRequest [] { id := "u1", name := "Alice", role := Role.agent }
        "u1" "s1" "s2" =
      ([{ requester_id := "u1", target_user_id := "u1",
          requester_shift_id := "s1", target_shift_id := "s2",
          status := SwapRequestStatus.pending_acceptance,
          requester_original_date := none,
          requester_original_shift_type := none,
          target_original_date := none,
          target_original_shift_type := none }], none) :=
  ⟨rfl, rfl⟩

/-- Claim C5, amended: handleSubmit itself never compares requester and
target; the constraint is enforced by the selection list — every
colleague offered by fetchAgents has an id different from the requester,
so a submission whose target is taken from the offered list produces a
row whose target_user_id differs from its requester_id; an unselected
(empty) target is rejected with a required-field error and the table is
unchanged. -/
theorem swapTarget_guard (users : List User) (current : User) (t : User)
    (ht : t ∈ fetchAgents users current) :
    t.id ≠ current.id ∧
    (∀ myShiftId targetShiftId r,
      handleSubmitSwap current t.id myShiftId targetShiftId =
        Except.ok r →
      r.requester_id = current.id ∧ r.target_user_id = t.id ∧
      r.target_user_id ≠ r.requester_id) ∧
    (∀ db myShiftId targetShiftId,
      submitSwapRequest db current "" myShiftId targetShiftId =
        (db, some WorkflowError.MissingField)) := by
  have hne : t.id ≠ current.id := by
    have hpred := (List.mem_filter.mp ht).2
    simp only [Bool.and_eq_true, bne_iff_ne] at hpred
    exact hpred.2
  refine ⟨hne, ?_, ?_⟩
  · intro ms ts r h
    simp only [handleSubmitSwap] at h
    split_ifs at h <;> cases h
    exact ⟨rfl, rfl, hne⟩
  · intro db ms ts
    simp [submitSwapRequest, handleSubmitSwap]

/-- Witness for C5 (amended) at concrete inputs: Bob (u2) is offered to
Alice (u1), a submission targeting him records distinct parties, and an
empty target selection leaves the table unchanged. -/
theorem swapTarget_guard_w :
    ("u2" : String) ≠ "u1" ∧
    ({ requester_id := "u1", target_user_id := "u2",
       requester_shift_id := "s1", target_shift_id := "s2",
       status := SwapRequestStatus.pending_acceptance,
       requester_original_date := none,
       requester_original_shift_type := none,
       target_original_date := none,
       target_original_shift_type := none } : SwapRequest).target_user_id ≠
      ({ requester_id := "u1", target_user_id := "u2",
         requester_shift_id := "s1", target_shift_id := "s2",
         status := SwapRequestStatus.pending_acceptance,
         requester_original_date := none,
         requester_original_shift_type := none,
         target_original_date := none,
         target_original_shift_type := none } : SwapRequest).requester_id ∧
    submitSwapRequest [] { id := "u1", name := "Alice", role := Role.agent }
        "" "s1" "s2" =
      ([], some WorkflowError.MissingField) := by
  have h := swapTarget_guard
    [{ id := "u1", name := "Alice", role := Role.agent },
     { id := "u2", name := "Bob", role := Role.agent }]
    { id := "u1", name := "Alice", role := Role.agent }
    { id := "u2", name := "Bob", role := Role.agent } (by decide)
  refine ⟨h.1, ?_, h.2.2 [] "s1" "s2"⟩
  exact (h.2.1 "s1" "s2"
    { requester_id := "u1", target_user_id := "u2",
      requester_shift_id := "s1", target_shift_id := "s2",
      status := SwapRequestStatus.pending_acceptance,
      requester_original_date := none,
      requester_original_shift_type := none,
      target_original_date := none,
      target_original_shift_type := none } rfl).2.2

/-- Claim C6: the row built by handleSubmit carries none of the four
migration-006 snapshot columns — every successfully created swap request
has all four snapshot fields null, although migration 006 documents them
as captured at the time of request creation. -/
theorem handleSubmitSwap_no_snapshot (current : User) (t ms ts : String)
    (r : SwapRequest)
    (h : handleSubmitSwap current t ms ts = Except.ok r) :
    r.requester_original_date = none ∧
    r.requester_original_shift_type = none ∧
    r.target_original_date = none ∧
    r.target_original_shift_type = none := by
  simp only [handleSubmitSwap] at h
  split_ifs at h <;> cases h
  exact ⟨rfl, rfl, rfl, rfl⟩

/-- Witness for C6 at a concrete successful submission. -/
theorem handleSubmitSwap_no_snapshot_w :
    ({ requester_id := "u1", target_user_id := "u2",
       requester_shift_id := "s1", target_shift_id := "s2",
       status := SwapRequestStatus.pending_acceptance,
       requester_original_date := none,
       requester_original_shift_type := none,
       target_original_date := none,
       target_original_shift_type := none } : SwapRequest).requester_original_date = none ∧
    ({ requester_id := "u1", target_user_id := "u2",
       requester_shift_id := "s1", target_shift_id := "s2",
       status := SwapRequestStatus.pending_acceptance,
       requester_original_date := none,
       requester_original_shift_type := none,
       target_original_date := none,
       target_original_shift_type := none } : SwapRequest).requester_original_shift_type = none ∧
    ({ requester_id := "u1", target_user_id := "u2",
       requester_shift_id := "s1", target_shift_id := "s2",
       status := SwapRequestStatus.pending_acceptance,
       requester_original_date := none,
       requester_original_shift_type := none,
       target_original_date := none,
       target_original_shift_type := none } : SwapRequest).target_original_date = none ∧
    ({ requester_id := "u1", target_user_id := "u2",
       requester_shift_id := "s1", target_shift_id := "s2",
       status := SwapRequestStatus.pending_acceptance,
       requester_original_date := none,
       requester_original_shift_type := none,
       target_original_date := none,
       target_original_shift_type := none } : SwapRequest).target_original_shift_type = none :=
  handleSubmitSwap_no_snapshot
    { id := "u1", name := "Alice", role := Role.agent } "u2" "s1" "s2"
    _ rfl

/-- Claim C7, counterexample: with a shifts table whose only row is the
requester's own shift dated 0 (before today, 10, so it is offered by
neither shift list) and a target shift id that resolves to no row at
all, the submission does not fail with InvalidShift — it succeeds and
inserts the row. -/
theorem handleSubmitSwap_pastShift_cex :
    fetchMyShifts
      [{ id := "s9", user_id := "u1", date := 0,
         shift_type := ShiftType.AM }]
      { id := "u1", name := "Alice", role := Role.agent } 10 = [] ∧
    fetchTargetShifts
      [{ id := "s9", user_id := "u1", date := 0,
         shift_type := ShiftType.AM }] "u2" 10 = [] ∧
    submitSwapRequest [] { id := "u1", name := "Alice", role := Role.agent }
        "u2" "s9" "s8" =
      ([{ requester_id := "u1", target_user_id := "u2",
          requester_shift_id := "s9", target_shift_id := "s8",
          status := SwapRequestStatus.pending_acceptance,
          requester_original_date := none,
          requester_original_shift_type := none,
          target_original_date := none,
          target_original_shift_type := none }], none) := by
  refine ⟨by decide, by decide, rfl⟩

/-- Claim C7, amended: handleSubmit performs no shift validation of its
own; the ownership and no-past-shifts constraint is enforced by the
selection lists — every shift offered by fetchMyShifts belongs to the
current user with date not before today, and every shift offered by
fetchTargetShifts belongs to the target user with date not before
today, so a submission whose shift ids are taken from the offered lists
references correctly owned, non-past shifts. -/
theorem swapShiftLists_guard (shifts : List Shift) (current : User)
    (targetUserId : String) (today : Nat) :
    (∀ s ∈ fetchMyShifts shifts current today,
      s.user_id = current.id ∧ today ≤ s.date) ∧
    (∀ s ∈ fetchTargetShifts shifts targetUserId today,
      s.user_id = targetUserId ∧ today ≤ s.date) := by
  constructor
  · intro s hs
    have hpred := (List.mem_filter.mp hs).2
    simp only [Bool.and_eq_true, beq_iff_eq, decide_eq_true_eq] at hpred
    exact hpred
  · intro s hs
    have hpred := (List.mem_filter.mp hs).2
    simp only [Bool.and_eq_true, beq_iff_eq, decide_eq_true_eq] at hpred
    exact hpred

/-- Witness for C7 (amended) at a concrete offered shift. -/
theorem swapShiftLists_guard_w :
    ({ id := "s1", user_id := "u1", date := 12,
       shift_type := ShiftType.AM } : Shift).user_id = "u1" ∧
    10 ≤
      ({ id := "s1", user_id := "u1", date := 12,
         shift_type := ShiftType.AM } : Shift).date :=
  (swapShiftLists_guard
    [{ id := "s1", user_id := "u1", date := 12,
       shift_type := ShiftType.AM }]
    { id := "u1", name := "Alice", role := Role.agent } "u2" 10).1
    _ (by decide)

/-- Claim C8: every swap request that handleSubmit successfully creates
has status pending_acceptance; the creation path reads no settings, so
the auto-approve flag cannot influence it. -/
theorem handleSubmitSwap_status (current : User) (t ms ts : String)
    (r : SwapRequest)
    (h : handleSubmitSwap current t ms ts = Except.ok r) :
    r.status = SwapRequestStatus.pending_acceptance := by
  simp only [handleSubmitSwap] at h
  split_ifs at h <;> cases h
  rfl

/-- Witness for C8 at a concrete successful submission. -/
theorem handleSubmitSwap_status_w :
    ({ requester_id := "u1", target_user_id := "u2",
       requester_shift_id := "s1", target_shift_id := "s2",
       status := SwapRequestStatus.pending_acceptance,
       requester_original_date := none,
       requester_original_shift_type := none,
       target_original_date := none,
       target_original_shift_type := none } : SwapRequest).status =
      SwapRequestStatus.pending_acceptance :=
  handleSubmitSwap_status
    { id := "u1", name := "Alice", role := Role.agent } "u2" "s1" "s2"
    _ rfl

/-! Helper lemmas and fixtures for the decide operations. -/

/-- find? commutes with mapping a function that never changes the tested
field. -/
lemma find?_map_of_id_eq (f : Shift → Shift) (p : Shift → Bool)
    (hp : ∀ s, p (f s) = p s) (l : List Shift) :
    (l.map f).find? p = (l.find? p).map f := by
  induction l with
  | nil => rfl
  | cons x xs ih =>
    by_cases hx : p x = true
    · rw [List.map_cons, List.find?_cons_of_pos _ (by rw [hp]; exact hx),
          List.find?_cons_of_pos _ hx]
      rfl
    · have hx2 : ¬ p (f x) = true := by rw [hp]; exact hx
      rw [List.map_cons, List.find?_cons_of_neg _ hx2,
          List.find?_cons_of_neg _ hx, ih]

/-- With both shift ids resolving, the ownership exchange is the
pointwise rewrite of the table. -/
lemma swapShiftOwners_eq_map (shifts : List Shift) (A B : String)
    (a b : Shift)
    (hfa : shifts.find? (fun s => s.id == A) = some a)
    (hfb : shifts.find? (fun s => s.id == B) = some b) :
    swapShiftOwners shifts A B =
      shifts.map (fun s =>
        if s.id == A then { s with user_id := b.user_id }
        else if s.id == B then { s with user_id := a.user_id }
        else s) := by
  unfold swapShiftOwners
  rw [hfa, hfb]

/-- The pointwise rewrite never changes a row's id. -/
lemma swap_map_preserves_id (A B : String) (a b : Shift) (p : String)
    (s : Shift) :
    ((if s.id == A then { s with user_id := b.user_id }
      else if s.id == B then { s with user_id := a.user_id }
      else s).id == p) = (s.id == p) := by
  split_ifs <;> rfl

/-- After the exchange, the requester's shift row carries the target's
former owner. -/
lemma swapShiftOwners_find_left (shifts : List Shift) (A B : String)
    (a b : Shift)
    (hfa : shifts.find? (fun s => s.id == A) = some a)
    (hfb : shifts.find? (fun s => s.id == B) = some b) :
    (swapShiftOwners shifts A B).find? (fun s => s.id == A) =
      some { a with user_id := b.user_id } := by
  rw [swapShiftOwners_eq_map shifts A B a b hfa hfb,
      find?_map_of_id_eq _ _ (fun s => swap_map_preserves_id A B a b A s),
      hfa]
  have ha : a.id = A := by simpa using List.find?_some hfa
  simp [ha]

/-- After the exchange, the target's shift row carries the requester's
former owner. -/
lemma swapShiftOwners_find_right (shifts : List Shift) (A B : String)
    (a b : Shift) (hne : A ≠ B)
    (hfa : shifts.find? (fun s => s.id == A) = some a)
    (hfb : shifts.find? (fun s => s.id == B) = some b) :
    (swapShiftOwners shifts A B).find? (fun s => s.id == B) =
      some { b with user_id := a.user_id } := by
  rw [swapShiftOwners_eq_map shifts A B a b hfa hfb,
      find?_map_of_id_eq _ _ (fun s => swap_map_preserves_id A B a b B s),
      hfb]
  have hb : b.id = B := by simpa using List.find?_some hfb
  have hBA : ¬ B = A := fun h => hne h.symm
  simp [hb, hBA]

/-- Rows referenced by neither shift id survive the exchange unchanged. -/
lemma swapShiftOwners_mem_other (shifts : List Shift) (A B : String)
    (a b : Shift)
    (hfa : shifts.find? (fun s => s.id == A) = some a)
    (hfb : shifts.find? (fun s => s.id == B) = some b)
    (s : Shift) (hs : s ∈ shifts) (h1 : s.id ≠ A) (h2 : s.id ≠ B) :
    s ∈ swapShiftOwners shifts A B := by
  rw [swapShiftOwners_eq_map shifts A B a b hfa hfb]
  refine List.mem_map.mpr ⟨s, hs, ?_⟩
  simp [h1, h2]

def leavePendingWFM : LeaveRequest :=
  { reqA1 with status := LeaveRequestStatus.pending_wfm }

def leaveApproved : LeaveRequest :=
  { reqA1 with status := LeaveRequestStatus.approved }

def shiftU1 : Shift :=
  { id := "s1", user_id := "u1", date := 10, shift_type := ShiftType.AM }

def shiftU2 : Shift :=
  { id := "s2", user_id := "u2", date := 11, shift_type := ShiftType.PM }

def shiftsDb : List Shift := [shiftU1, shiftU2]

def swapPendingApproval : SwapRequest :=
  { requester_id := "u1", target_user_id := "u2",
    requester_shift_id := "s1", target_shift_id := "s2",
    status := SwapRequestStatus.pending_approval,
    requester_original_date := none,
    requester_original_shift_type := none,
    target_original_date := none,
    target_original_shift_type := none }

/-- Claim C1: decideLeaveRequest implements the two-stage state machine.
From pending_tl, approve by a team lead or workforce manager moves to
pending_wfm stamping the TL timestamp, approve by any other role (agent)
fails with Unauthorized, and reject moves to rejected stamping the TL
timestamp; from pending_wfm, approve (by the workforce manager, the role
the spec requires there) moves to approved and reject moves to rejected,
each stamping the WFM timestamp; from approved or rejected every
decision fails with TerminalState. -/
theorem decideLeaveRequest_stateMachine (r : LeaveRequest) (role : Role)
    (now : Nat) :
    (r.status = LeaveRequestStatus.pending_tl →
      (role = Role.tl ∨ role = Role.wfm) →
      decideLeaveRequest r role Decision.approve now =
        Except.ok { r with status := LeaveRequestStatus.pending_wfm,
                           tl_approved_at := some now }) ∧
    (r.status = LeaveRequestStatus.pending_tl → role = Role.agent →
      decideLeaveRequest r role Decision.approve now =
        Except.error WorkflowError.Unauthorized) ∧
    (r.status = LeaveRequestStatus.pending_tl →
      decideLeaveRequest r role Decision.reject now =
        Except.ok { r with status := LeaveRequestStatus.rejected,
                           tl_approved_at := some now }) ∧
    (r.status = LeaveRequestStatus.pending_wfm → role = Role.wfm →
      decideLeaveRequest r role Decision.approve now =
        Except.ok { r with status := LeaveRequestStatus.approved,
                           wfm_approved_at := some now }) ∧
    (r.status = LeaveRequestStatus.pending_wfm →
      decideLeaveRequest r role Decision.reject now =
        Except.ok { r with status := LeaveRequestStatus.rejected,
                           wfm_approved_at := some now }) ∧
    (∀ d, r.status = LeaveRequestStatus.approved ∨
        r.status = LeaveRequestStatus.rejected →
      decideLeaveRequest r role d now =
        Except.error WorkflowError.TerminalState) := by
  refine ⟨?_, ?_, ?_, ?_, ?_, ?_⟩
  · intro hs hrole
    simp only [decideLeaveRequest, hs]
    rw [if_pos hrole]
  · intro hs hrole
    subst hrole
    simp [decideLeaveRequest, hs]
  · intro hs
    simp [decideLeaveRequest, hs]
  · intro hs hrole
    subst hrole
    simp [decideLeaveRequest, hs]
  · intro hs
    simp [decideLeaveRequest, hs]
  · intro d hd
    rcases hd with h | h <;> cases d <;> simp [decideLeaveRequest, h]

/-- Witness for C1 at concrete requests: each transition of the table
exercised once. -/
theorem decideLeaveRequest_stateMachine_w :
    decideLeaveRequest reqA1 Role.tl Decision.approve 5 =
      Except.ok { reqA1 with status := LeaveRequestStatus.pending_wfm,
                             tl_approved_at := some 5 } ∧
    decideLeaveRequest reqA1 Role.agent Decision.approve 5 =
      Except.error WorkflowError.Unauthorized ∧
    decideLeaveRequest reqA1 Role.agent Decision.reject 5 =
      Except.ok { reqA1 with status := LeaveRequestStatus.rejected,
                             tl_approved_at := some 5 } ∧
    decideLeaveRequest leavePendingWFM Role.wfm Decision.approve 5 =
      Except.ok { leavePendingWFM with
                    status := LeaveRequestStatus.approved,
                    wfm_approved_at := some 5 } ∧
    decideLeaveRequest leavePendingWFM Role.wfm Decision.reject 5 =
      Except.ok { leavePendingWFM with
                    status := LeaveRequestStatus.rejected,
                    wfm_approved_at := some 5 } ∧
    decideLeaveRequest leaveApproved Role.wfm Decision.approve 5 =
      Except.error WorkflowError.TerminalState :=
  ⟨(decideLeaveRequest_stateMachine reqA1 Role.tl 5).1 rfl (Or.inl rfl),
   (decideLeaveRequest_stateMachine reqA1 Role.agent 5).2.1 rfl rfl,
   (decideLeaveRequest_stateMachine reqA1 Role.agent 5).2.2.1 rfl,
   (decideLeaveRequest_stateMachine leavePendingWFM Role.wfm 5).2.2.2.1
     rfl rfl,
   (decideLeaveRequest_stateMachine leavePendingWFM Role.wfm 5).2.2.2.2.1
     rfl,
   (decideLeaveRequest_stateMachine leaveApproved Role.wfm 5).2.2.2.2.2
     Decision.approve (Or.inl rfl)⟩

/-- Claim C2: when decideSwapRequest approves a request in
pending_approval, committing the reported side effect exchanges the two
referenced shift rows' owning-user identifiers exactly once — the
requester's shift row takes the target's former owner and vice versa,
every other row survives unchanged — and calling decide again on the
now-approved request fails with TerminalState, producing no further
state, so no second exchange ever occurs for the request. -/
theorem decideSwapRequest_exchange_once (shifts : List Shift)
    (r : SwapRequest) (role : Role) (a b : Shift)
    (hst : r.status = SwapRequestStatus.pending_approval)
    (hrole : role = Role.tl ∨ role = Role.wfm)
    (hne : r.requester_shift_id ≠ r.target_shift_id)
    (hfa : shifts.find? (fun s => s.id == r.requester_shift_id) = some a)
    (hfb : shifts.find? (fun s => s.id == r.target_shift_id) = some b) :
    decideSwapAndApply shifts r role Decision.approve =
      Except.ok ({ r with status := SwapRequestStatus.approved },
        swapShiftOwners shifts r.requester_shift_id r.target_shift_id) ∧
    (swapShiftOwners shifts r.requester_shift_id
        r.target_shift_id).find?
        (fun s => s.id == r.requester_shift_id) =
      some { a with user_id := b.user_id } ∧
    (swapShiftOwners shifts r.requester_shift_id
        r.target_shift_id).find?
        (fun s => s.id == r.target_shift_id) =
      some { b with user_id := a.user_id } ∧
    (∀ s ∈ shifts, s.id ≠ r.requester_shift_id →
      s.id ≠ r.target_shift_id →
      s ∈ swapShiftOwners shifts r.requester_shift_id
            r.target_shift_id) ∧
    (∀ role2 d2,
      decideSwapAndApply
          (swapShiftOwners shifts r.requester_shift_id
            r.target_shift_id)
          { r with status := SwapRequestStatus.approved } role2 d2 =
        Except.error WorkflowError.TerminalState) := by
  refine ⟨?_, ?_, ?_, ?_, ?_⟩
  · simp only [decideSwapAndApply, decideSwapRequest, hst]
    rw [if_pos hrole]
    rfl
  · exact swapShiftOwners_find_left shifts _ _ a b hfa hfb
  · exact swapShiftOwners_find_right shifts _ _ a b hne hfa hfb
  · intro s hs h1 h2
    exact swapShiftOwners_mem_other shifts _ _ a b hfa hfb s hs h1 h2
  · intro role2 d2
    simp [decideSwapAndApply, decideSwapRequest]

/-- Witness for C2 at a concrete two-row shifts table: the approve
exchanges s1 and s2 between u1 and u2 and the repeated decide fails
with TerminalState. -/
theorem decideSwapRequest_exchange_once_w :
    decideSwapAndApply shiftsDb swapPendingApproval Role.tl
        Decision.approve =
      Except.ok ({ swapPendingApproval with
                     status := SwapRequestStatus.approved },
        swapShiftOwners shiftsDb "s1" "s2") ∧
    (swapShiftOwners shiftsDb "s1" "s2").find?
        (fun s => s.id == "s1") =
      some { shiftU1 with user_id := "u2" } ∧
    (swapShiftOwners shiftsDb "s1" "s2").find?
        (fun s => s.id == "s2") =
      some { shiftU2 with user_id := "u1" } ∧
    decideSwapAndApply (swapShiftOwners shiftsDb "s1" "s2")
        { swapPendingApproval with
            status := SwapRequestStatus.approved }
        Role.wfm Decision.approve =
      Except.error WorkflowError.TerminalState := by
  have h := decideSwapRequest_exchange_once shiftsDb swapPendingApproval
    Role.tl shiftU1 shiftU2 rfl (Or.inl rfl) (by decide) rfl rfl
  exact ⟨h.1, h.2.1, h.2.2.1, h.2.2.2.2 Role.wfm Decision.approve⟩

end SwapTool
